import Mathlib

/-!
Verification development for the TRIDENT live call triage core
(`backend/live_processor.py`, `backend/triage_engine.py`, `backend/database.py`).

The Python classes are shallowly embedded:
* audio samples are rationals (Web Audio float32 samples, modelled exactly);
* an inbound websocket byte chunk is `Option (List ℚ)`: `none` stands for a
  byte string that `np.frombuffer` cannot decode (its `ValueError` is caught
  inside `add_chunk`, leaving the buffer untouched), `some []` for a
  zero-length byte string, and `some audio` for a decodable chunk;
* the voice-activity test `rms > energy_threshold` is embedded squared
  (`mean of squares > threshold^2`), which is equivalent because both sides
  of the source comparison are nonnegative and squaring is monotone there —
  this avoids an irrational square root in the model;
* the three feature providers (ASR, bio-acoustic, NLP) are per-cycle
  parameters of type `Except String _`: `.error` models the provider
  throwing, which the source catches per cycle;
* the database is a list of rows with a unique `call_id` column (the
  `IntegrityError` of a duplicate insert is caught by `_save_to_database`);
  a write-attempt counter records every issued insert;
* wall-clock time (`datetime.now()`) is an explicit rational parameter.
-/

namespace Trident

/-! ## Streaming audio buffer (`AudioBuffer` in `live_processor.py`) -/

/-- State of `AudioBuffer`.  `chunk_duration`/`chunk_size` are unused by the
source logic and omitted. -/
structure AudioBuffer where
  sample_rate : ℚ
  buffer : List ℚ
  total_duration : ℚ
  energy_threshold : ℚ
  silence_duration : ℚ
  last_voice_time : ℚ
deriving DecidableEq

/-- `AudioBuffer.__init__` with the source defaults
(`sample_rate=16000`, `energy_threshold=0.01`, `silence_duration=1.5`). -/
def mkAudioBuffer : AudioBuffer :=
  { sample_rate := 16000
    buffer := []
    total_duration := 0
    energy_threshold := 1/100
    silence_duration := 3/2
    last_voice_time := 0 }

/-- Sum of squared samples, used for the RMS energy of an incoming block. -/
def sumSq (l : List ℚ) : ℚ :=
  (l.map (fun x => x * x)).sum

/-- `rms > energy_threshold` for the incoming block, embedded squared:
`sqrt(mean(audio**2)) > thr` iff `mean(audio**2) > thr^2` (both sides of the
source comparison are nonnegative). -/
def blockVoiced (thr : ℚ) (audio : List ℚ) : Bool :=
  decide (sumSq audio / (audio.length : ℚ) > thr ^ 2)

/-- `AudioBuffer.add_chunk`.  A zero-length byte string returns early; an
undecodable byte string raises inside the `try`, is caught, and leaves the
state unchanged; otherwise the samples are appended, the duration is
recomputed from the new length, and `last_voice_time` is advanced when the
incoming block's RMS exceeds the energy threshold. -/
def AudioBuffer.add_chunk (b : AudioBuffer) (audio_data : Option (List ℚ)) : AudioBuffer :=
  match audio_data with
  | none => b
  | some [] => b
  | some audio =>
    let buffer := b.buffer ++ audio
    let total_duration := (buffer.length : ℚ) / b.sample_rate
    { b with
      buffer := buffer
      total_duration := total_duration
      last_voice_time :=
        if blockVoiced b.energy_threshold audio then total_duration
        else b.last_voice_time }

/-- `AudioBuffer.should_process`: false on an empty buffer; true when silence
since the last voiced block has lasted `silence_duration` (and voice was seen),
or when the buffer has reached the 30 s overflow cap. -/
def AudioBuffer.should_process (b : AudioBuffer) : Bool :=
  if b.buffer.length = 0 then false
  else if b.total_duration - b.last_voice_time ≥ b.silence_duration ∧ b.last_voice_time > 0 then true
  else if b.total_duration ≥ 30 then true
  else false

/-- `AudioBuffer.get_audio` (the copy is value-level here). -/
def AudioBuffer.get_audio (b : AudioBuffer) : List ℚ :=
  b.buffer

/-- `AudioBuffer.clear`. -/
def AudioBuffer.clear (b : AudioBuffer) : AudioBuffer :=
  { b with buffer := [], total_duration := 0, last_voice_time := 0 }

/-- `AudioBuffer.get_duration`. -/
def AudioBuffer.get_duration (b : AudioBuffer) : ℚ :=
  b.total_duration

/-- Buffer states reachable from a fresh `AudioBuffer` by any interleaving of
`add_chunk` and `clear`. -/
inductive BufReachable : AudioBuffer → Prop where
  | init : BufReachable mkAudioBuffer
  | add (b : AudioBuffer) (chunk : Option (List ℚ)) :
      BufReachable b → BufReachable (b.add_chunk chunk)
  | clear (b : AudioBuffer) : BufReachable b → BufReachable b.clear

/-! ## Weighted metric aggregator
(`_get_weighted_average_confidence` / `_get_weighted_average_distress`) -/

/-- Duration-weighted average over a list of `(value, weight)` samples:
0 when the list is empty, 0 when the total weight is 0, otherwise
`Σ value*weight / Σ weight`.  Both session methods compute exactly this over
their respective score lists. -/
def weightedAverage (scores : List (ℚ × ℚ)) : ℚ :=
  if scores = [] then 0
  else
    let total_weight := (scores.map Prod.snd).sum
    if total_weight = 0 then 0
    else (scores.map (fun p => p.1 * p.2)).sum / total_weight

/-! ## Triage decision matrix (`triage_engine.py`) -/

/-- Payload of `TriageEngine.prioritize_call` (queue, priority, audio-review
flag, reasoning).  Reasoning strings are abbreviated to their leading
sentence; the spec marks them as descriptive, not load-bearing. -/
structure TriageCore where
  queue : String
  priority_level : ℕ
  flag_audio_review : Bool
  reasoning : String
deriving DecidableEq

/-- Full dict returned by `TriageEngine.generate_dispatcher_guidance`. -/
structure TriageDecision where
  queue : String
  priority_level : ℕ
  flag_audio_review : Bool
  reasoning : String
  dispatcher_action : String
  escalation_required : Bool
deriving DecidableEq

/-- `TriageEngine.prioritize_call`: the 3D decision matrix.  Thresholds are
the class constants `CONFIDENCE_THRESHOLD=0.7`, `CONTENT_THRESHOLD=0.4`,
`DISTRESS_THRESHOLD=0.5`; the eight cases follow the source's `elif` chain. -/
def prioritize_call (confidence distress_score content_score : ℚ) : TriageCore :=
  let high_confidence := confidence ≥ 7/10
  let high_content := content_score > 4/10
  let high_concern := distress_score > 5/10
  if ¬high_confidence ∧ ¬high_content ∧ high_concern then
    { queue := "Q1-IMMEDIATE", priority_level := 1, flag_audio_review := true
      reasoning := "HERO SCENARIO: Low confidence + high distress with unclear content." }
  else if ¬high_confidence ∧ high_content ∧ ¬high_concern then
    { queue := "Q2-ELEVATED", priority_level := 2, flag_audio_review := true
      reasoning := "Serious incident reported but transcription unclear." }
  else if ¬high_confidence ∧ high_content ∧ high_concern then
    { queue := "Q1-IMMEDIATE", priority_level := 1, flag_audio_review := true
      reasoning := "Critical situation: High content urgency + high distress with unclear transcription." }
  else if high_confidence ∧ ¬high_content ∧ high_concern then
    { queue := "Q3-MONITOR", priority_level := 3, flag_audio_review := false
      reasoning := "Clear transcription with elevated distress but low content urgency." }
  else if high_confidence ∧ high_content ∧ ¬high_concern then
    { queue := "Q2-ELEVATED", priority_level := 2, flag_audio_review := false
      reasoning := "Serious incident reported clearly and calmly." }
  else if high_confidence ∧ high_content ∧ high_concern then
    { queue := "Q1-IMMEDIATE", priority_level := 1, flag_audio_review := false
      reasoning := "Maximum urgency: Clear critical incident with high distress." }
  else if ¬high_confidence ∧ ¬high_content ∧ ¬high_concern then
    { queue := "Q5-REVIEW", priority_level := 5, flag_audio_review := true
      reasoning := "Low confidence transcription with no urgency indicators." }
  else
    { queue := "Q5-ROUTINE", priority_level := 5, flag_audio_review := false
      reasoning := "Clear communication with low urgency content and calm delivery." }

/-- `TriageEngine.generate_dispatcher_guidance`: wraps `prioritize_call`,
adding `dispatcher_action` and `escalation_required` per queue (the
`transcript` argument is unused by the source logic). -/
def generate_dispatcher_guidance (confidence distress_score : ℚ) (_transcript : String)
    (content_score : ℚ) : TriageDecision :=
  let triage := prioritize_call confidence distress_score content_score
  if triage.queue = "Q1-IMMEDIATE" then
    { queue := triage.queue, priority_level := triage.priority_level
      flag_audio_review := triage.flag_audio_review, reasoning := triage.reasoning
      dispatcher_action := "IMMEDIATE ATTENTION REQUIRED: Listen to audio immediately."
      escalation_required := true }
  else if triage.queue = "Q2-ELEVATED" then
    { queue := triage.queue, priority_level := triage.priority_level
      flag_audio_review := triage.flag_audio_review, reasoning := triage.reasoning
      dispatcher_action := "HIGH PRIORITY: Serious incident reported."
      escalation_required := false }
  else if triage.queue = "Q3-MONITOR" then
    { queue := triage.queue, priority_level := triage.priority_level
      flag_audio_review := triage.flag_audio_review, reasoning := triage.reasoning
      dispatcher_action := "MONITOR SITUATION: Caller shows stress indicators but communication is clear."
      escalation_required := false }
  else if triage.queue = "Q5-REVIEW" then
    { queue := triage.queue, priority_level := triage.priority_level
      flag_audio_review := triage.flag_audio_review, reasoning := triage.reasoning
      dispatcher_action := "REVIEW WHEN AVAILABLE: Audio review recommended due to low transcription confidence."
      escalation_required := false }
  else
    { queue := triage.queue, priority_level := triage.priority_level
      flag_audio_review := triage.flag_audio_review, reasoning := triage.reasoning
      dispatcher_action := "ROUTINE LOGGING: Standard infrastructure report with clear communication."
      escalation_required := false }

/-- The spec's truth table of section 4.3, written from the spec's words: for
each combination of the three High/Low classifications, the promised
(queue, priority, audio-review) outcome. -/
def specDecisionTable (high_confidence high_content high_concern : Bool) : String × ℕ × Bool :=
  match high_confidence, high_content, high_concern with
  | false, false, true  => ("Q1-IMMEDIATE", 1, true)
  | false, true,  false => ("Q2-ELEVATED", 2, true)
  | false, true,  true  => ("Q1-IMMEDIATE", 1, true)
  | true,  false, true  => ("Q3-MONITOR", 3, false)
  | true,  true,  false => ("Q2-ELEVATED", 2, false)
  | true,  true,  true  => ("Q1-IMMEDIATE", 1, false)
  | false, false, false => ("Q5-REVIEW", 5, true)
  | true,  false, false => ("Q5-ROUTINE", 5, false)

/-! ## Live call session (`LiveCallSession` in `live_processor.py`) -/

/-- Mutable state of `LiveCallSession` (the websocket handle is modelled by
the `connected` parameter where the source consults it). -/
structure SessionState where
  call_id : String
  start_time : ℚ
  is_active : Bool
  audio_buffer : AudioBuffer
  full_transcript : String
  confidence_scores : List (ℚ × ℚ)
  distress_scores : List (ℚ × ℚ)
  content_score : ℚ
  latest_confidence : ℚ
  latest_distress : ℚ
  current_triage : Option TriageDecision
  chunk_count : ℕ
deriving DecidableEq

/-- `LiveCallSession.__init__`. -/
def mkSession (call_id : String) (start_time : ℚ) : SessionState :=
  { call_id := call_id
    start_time := start_time
    is_active := true
    audio_buffer := mkAudioBuffer
    full_transcript := ""
    confidence_scores := []
    distress_scores := []
    content_score := 0
    latest_confidence := 0
    latest_distress := 0
    current_triage := none
    chunk_count := 0 }

/-- Outcomes of the three feature providers for one processing cycle.
`.error` models the provider call throwing (the per-cycle `except` path).
The ASR result carries `(transcript, confidence)`; the bio-acoustic result is
reduced to its `distress_score` (the only field the session logic consumes);
the NLP result to its `content_score`. -/
structure Providers where
  asr : Except String (String × ℚ)
  bio : Except String ℚ
  nlp : Except String ℚ

/-- Websocket updates emitted by the session (`send_update` payloads).  The
`processing_complete` variant keeps the fields the claims are about. -/
inductive Update where
  | bufferUpdate (duration : ℚ) (chunks_received : ℕ)
  | processingStarted (duration : ℚ)
  | processingComplete (transcript transcript_chunk : String)
      (confidence content_score distress_score : ℚ)
      (triage : TriageDecision) (call_duration : ℚ)
  | errorUpdate (message : String)
deriving DecidableEq

/-- Python's `str.strip()`: drop leading and trailing whitespace characters.
Written over the character list so that it evaluates by kernel reduction
(`String.trim` does not). -/
def pyStrip (s : String) : String :=
  String.mk (((s.data.dropWhile Char.isWhitespace).reverse.dropWhile Char.isWhitespace).reverse)

/-- Transcript append of `process_buffer`: non-empty new text is joined to
the running transcript with a single space. -/
def appendTranscript (full chunk_transcript : String) : String :=
  if chunk_transcript ≠ "" then
    if full ≠ "" then full ++ " " ++ chunk_transcript else chunk_transcript
  else full

/-- `LiveCallSession._extract_entities`: its own guard returns an empty
result (content score 0) for an empty or shorter-than-5-characters-after-strip
transcript; otherwise the NLP provider is consulted. -/
def extract_entities (nlp : Except String ℚ) (transcript : String) : Except String ℚ :=
  if transcript = "" ∨ (pyStrip transcript).length < 5 then Except.ok 0
  else nlp

/-- `LiveCallSession.process_buffer`: one processing cycle.  Mirrors the
source's sequential pipeline with its single `try/except`: an empty buffer
returns silently; a provider throw aborts the rest of the body, emits an
error update, and leaves the buffer uncleared; a completed cycle stores the
new decision, emits `processing_complete`, and clears the buffer. -/
def process_buffer (s : SessionState) (p : Providers) : SessionState × List Update :=
  let audio := s.audio_buffer.get_audio
  if audio.length = 0 then (s, [])
  else
    let started := Update.processingStarted ((audio.length : ℚ) / 16000)
    match p.asr with
    | Except.error e => (s, [started, Update.errorUpdate ("Processing error: " ++ e)])
    | Except.ok (transcript, confidence) =>
      let chunk_transcript := pyStrip transcript
      let chunk_duration : ℚ := (audio.length : ℚ) / 16000
      let s1 :=
        if chunk_transcript ≠ "" then
          let cs := s.confidence_scores ++ [(confidence, chunk_duration)]
          { s with
            full_transcript := appendTranscript s.full_transcript chunk_transcript
            confidence_scores := cs
            latest_confidence := weightedAverage cs }
        else s
      match p.bio with
      | Except.error e => (s1, [started, Update.errorUpdate ("Processing error: " ++ e)])
      | Except.ok distress_score =>
        let ds := s1.distress_scores ++ [(distress_score, chunk_duration)]
        let s2 := { s1 with distress_scores := ds, latest_distress := weightedAverage ds }
        let contentResult : Except String ℚ :=
          if s2.full_transcript ≠ "" ∧ (pyStrip s2.full_transcript).length ≥ 5 then
            extract_entities p.nlp s2.full_transcript
          else Except.ok 0
        match contentResult with
        | Except.error e => (s2, [started, Update.errorUpdate ("Processing error: " ++ e)])
        | Except.ok content_score =>
          let s3 := { s2 with content_score := content_score }
          let triage := generate_dispatcher_guidance s3.latest_confidence s3.latest_distress
            s3.full_transcript s3.content_score
          let s4 := { s3 with current_triage := some triage }
          let complete := Update.processingComplete s4.full_transcript chunk_transcript
            s4.latest_confidence s4.content_score s4.latest_distress triage
            s4.audio_buffer.get_duration
          ({ s4 with audio_buffer := s4.audio_buffer.clear }, [started, complete])

/-- `LiveCallSession.process_audio_chunk`: append the chunk, increment the
chunk counter, emit a buffer-status update, then run a processing cycle when
the VAD trigger fires. -/
def process_audio_chunk (s : SessionState) (audio_data : Option (List ℚ))
    (p : Providers) : SessionState × List Update :=
  let buf := s.audio_buffer.add_chunk audio_data
  let s1 := { s with audio_buffer := buf, chunk_count := s.chunk_count + 1 }
  let bu := Update.bufferUpdate buf.get_duration s1.chunk_count
  if buf.should_process then
    let r := process_buffer s1 p
    (r.1, bu :: r.2)
  else (s1, [bu])

/-- Session states reachable from a fresh session through the chunk-processing
interface (`process_audio_chunk` is the only mutation path the websocket
handler drives before finalization). -/
inductive SessionReachable : SessionState → Prop where
  | init (call_id : String) (start_time : ℚ) : SessionReachable (mkSession call_id start_time)
  | step (s : SessionState) (audio_data : Option (List ℚ)) (p : Providers) :
      SessionReachable s → SessionReachable (process_audio_chunk s audio_data p).1

/-! ## Persistence (`database.py` `LiveCall` rows, `_save_to_database`) -/

/-- Row of the `live_calls` table (fields the session writes; the four
bio-acoustic columns are always persisted as NULL by `_save_to_database` and
are omitted). -/
structure DbRecord where
  call_id : String
  start_time : ℚ
  end_time : ℚ
  duration_seconds : ℚ
  chunks_processed : ℕ
  total_audio_duration : ℚ
  transcript : String
  confidence_score : ℚ
  distress_score : ℚ
  content_score : ℚ
  triage_queue : Option String
  priority_level : Option ℕ
  flag_audio_review : Bool
  escalation_required : Bool
  dispatcher_action : Option String
  triage_reasoning : Option String
  status : String
deriving DecidableEq

/-- The persistence store: the committed rows plus a counter of every insert
the sessions issued (committed or rejected). -/
structure DbState where
  records : List DbRecord
  write_attempts : ℕ
deriving DecidableEq

/-- One `db.add` + `db.commit` against the unique `call_id` column: a
duplicate key makes the commit raise, which `_save_to_database` catches, so
the row set is unchanged; the attempt is counted either way. -/
def insertLiveCall (db : DbState) (r : DbRecord) : DbState :=
  { records :=
      if db.records.any (fun q => q.call_id == r.call_id) then db.records
      else db.records ++ [r]
    write_attempts := db.write_attempts + 1 }

/-- `LiveCallSession._save_to_database`: build the row from the session's
weighted averages and current decision (defaults when no decision was ever
produced) and issue one insert; failure is caught and never propagates. -/
def save_to_database (s : SessionState) (end_time call_duration : ℚ)
    (db : DbState) : DbState :=
  let r : DbRecord :=
    { call_id := s.call_id
      start_time := s.start_time
      end_time := end_time
      duration_seconds := call_duration
      chunks_processed := s.chunk_count
      total_audio_duration := s.audio_buffer.total_duration
      transcript := s.full_transcript
      confidence_score := weightedAverage s.confidence_scores
      distress_score := weightedAverage s.distress_scores
      content_score := s.content_score
      triage_queue := s.current_triage.map TriageDecision.queue
      priority_level := s.current_triage.map TriageDecision.priority_level
      flag_audio_review := (s.current_triage.map TriageDecision.flag_audio_review).getD false
      escalation_required := (s.current_triage.map TriageDecision.escalation_required).getD false
      dispatcher_action := s.current_triage.map TriageDecision.dispatcher_action
      triage_reasoning := s.current_triage.map TriageDecision.reasoning
      status := "completed" }
  insertLiveCall db r

/-- The final analysis dict returned by `LiveCallSession.finalize`. -/
structure Analysis where
  call_id : String
  duration : ℚ
  transcript : String
  confidence : ℚ
  content_score : ℚ
  distress_score : ℚ
  triage : Option TriageDecision
  chunks_processed : ℕ
deriving DecidableEq

/-- Everything one `finalize` call produces: the session state it leaves
behind, the returned analysis, the updates emitted by a final processing
cycle (empty when none ran), and the database state after its write. -/
structure FinalizeResult where
  state : SessionState
  analysis : Analysis
  events : List Update
  db : DbState
deriving DecidableEq

/-- `LiveCallSession.finalize`: mark the session inactive, run one last
processing cycle only when `chunk_count == 0`, more than 2 s of audio are
buffered, and the websocket is still connected; then persist a row and return
the final analysis.  `now` stands for `datetime.now()` at this call. -/
def finalize (s : SessionState) (now : ℚ) (connected : Bool) (p : Providers)
    (db : DbState) : FinalizeResult :=
  let s1 := { s with is_active := false }
  let r :=
    if s1.chunk_count = 0 ∧ s1.audio_buffer.get_duration > 2 then
      if connected then process_buffer s1 p else (s1, [])
    else (s1, [])
  let s2 := r.1
  let call_duration := now - s2.start_time
  let db2 := save_to_database s2 now call_duration db
  { state := s2
    analysis :=
      { call_id := s2.call_id
        duration := call_duration
        transcript := s2.full_transcript
        confidence := weightedAverage s2.confidence_scores
        content_score := s2.content_score
        distress_score := weightedAverage s2.distress_scores
        triage := s2.current_triage
        chunks_processed := s2.chunk_count }
    events := r.2
    db := db2 }

/-- True exactly on `processing_complete` updates (the decision updates). -/
def isProcessingComplete : Update → Bool
  | Update.processingComplete _ _ _ _ _ _ _ => true
  | _ => false

/-- One of the cycle's provider calls throws: the ASR call, the bio-acoustic
call, or — when the transcript gate passes so the NLP provider is actually
invoked — the entity-extraction call. -/
def cycle_throws (s : SessionState) (p : Providers) : Prop :=
  match p.asr with
  | Except.error _ => True
  | Except.ok (transcript, _) =>
    match p.bio with
    | Except.error _ => True
    | Except.ok _ =>
      match p.nlp with
      | Except.error _ =>
        appendTranscript s.full_transcript (pyStrip transcript) ≠ ""
        ∧ (pyStrip (appendTranscript s.full_transcript (pyStrip transcript))).length ≥ 5
      | Except.ok _ => False

/-- Witness fixture: a session holding one buffered sample (1/16000 s of
audio), as produced by one decoded inbound chunk. -/
def oneSampleSession : SessionState :=
  { mkSession "LIVE-W" 0 with
    audio_buffer := { mkAudioBuffer with buffer := [1], total_duration := 1/16000 } }

/-- Count of non-whitespace characters of a string, written from the claim's
words ("at least 5 non-whitespace characters"). -/
def countNonWhitespace (s : String) : ℕ :=
  (s.data.filter (fun ch => ¬ ch.isWhitespace)).length

/-- Witness fixture: providers that all succeed. -/
def provOk : Providers :=
  { asr := Except.ok ("help there is a fire", 9/10)
    bio := Except.ok (8/10)
    nlp := Except.ok (7/10) }

/-! ## Claim theorems -/

/-- Structural invariant of reachable buffers: the sample rate is the fixed
16000 Hz and the stored duration is always derived from the sample count. -/
theorem bufReachable_invariant (b : AudioBuffer) (h : BufReachable b) :
    b.sample_rate = 16000 ∧ b.total_duration = (b.buffer.length : ℚ) / b.sample_rate := by
  induction h with
  | init => simp [mkAudioBuffer]
  | add b chunk _ ih =>
    match chunk with
    | none => simpa [AudioBuffer.add_chunk] using ih
    | some [] => simpa [AudioBuffer.add_chunk] using ih
    | some (x :: xs) =>
      simp [AudioBuffer.add_chunk, ih.1]
  | clear b _ ih =>
    simp [AudioBuffer.clear, ih.1]


/-- Arithmetic helper: the witness weights below have positive sum. -/
theorem q_two_pos : (0 : ℚ) < 1 + 1 := by norm_num

/-- Arithmetic helper: the hero-scenario confidence 0.31 lies in [0,1]. -/
theorem hero_conf_bounds : (0 : ℚ) ≤ 31/100 ∧ (31/100 : ℚ) ≤ 1 := by norm_num

/-- Arithmetic helper: the hero-scenario content score 0 lies in [0,1]. -/
theorem hero_content_bounds : (0 : ℚ) ≤ 0 ∧ (0 : ℚ) ≤ 1 := by norm_num

/-- Arithmetic helper: the hero-scenario distress 0.94 lies in [0,1]. -/
theorem hero_distress_bounds : (0 : ℚ) ≤ 94/100 ∧ (94/100 : ℚ) ≤ 1 := by norm_num

/-- C4: the weighted-metric aggregator returns 0 with no samples; two samples
`(v1,w1)`, `(v2,w2)` with `w1+w2 > 0` average to `(v1*w1+v2*w2)/(w1+w2)`;
appending a zero-weight sample never changes the average; and durations 1.0
and 9.0 with confidences 0.2 and 0.9 average to 0.83. -/
theorem c4_weighted_average (v1 w1 v2 w2 v : ℚ) (l : List (ℚ × ℚ)) (hw : 0 < w1 + w2) :
    weightedAverage [] = 0
    ∧ weightedAverage [(v1, w1), (v2, w2)] = (v1 * w1 + v2 * w2) / (w1 + w2)
    ∧ weightedAverage (l ++ [(v, 0)]) = weightedAverage l
    ∧ weightedAverage [(2/10, 1), (9/10, 9)] = 83/100 := by
  refine ⟨by simp [weightedAverage], ?_, ?_, by simp [weightedAverage]; norm_num⟩
  · have hne : w1 + w2 ≠ 0 := ne_of_gt hw
    simp only [weightedAverage, List.map_cons, List.map_nil, List.sum_cons, List.sum_nil]
    simp only [add_zero]
    rw [if_neg (by simp), if_neg hne]
  · cases l with
    | nil => simp [weightedAverage]
    | cons hd tl =>
      simp [weightedAverage, List.map_append, List.sum_append]

/-- C4 witness: the theorem applied at `v1=1, w1=1, v2=0, w2=1, v=5, l=[]`. -/
theorem c4_weighted_average_witness :
    (0 : ℚ) < 1 + 1
    ∧ (weightedAverage [] = 0
      ∧ weightedAverage [((1 : ℚ), (1 : ℚ)), (0, 1)] = (1 * 1 + 0 * 1) / (1 + 1)
      ∧ weightedAverage ([] ++ [((5 : ℚ), (0 : ℚ))]) = weightedAverage []
      ∧ weightedAverage [(2/10, 1), (9/10, 9)] = 83/100) :=
  ⟨q_two_pos, c4_weighted_average 1 1 0 1 5 [] q_two_pos⟩

/-- C2: for all inputs in [0,1], `generate_dispatcher_guidance` classifies by
`confidence ≥ 0.70`, `content > 0.40`, `concern > 0.50` and produces exactly
the spec's (queue, priority, audio-review) table, with `escalation_required`
true exactly on Q1-IMMEDIATE; the stated boundary points classify as the
claim says. -/
theorem c2_decision_matrix (confidence content concern : ℚ)
    (hc : 0 ≤ confidence ∧ confidence ≤ 1) (hcont : 0 ≤ content ∧ content ≤ 1)
    (hconc : 0 ≤ concern ∧ concern ≤ 1) :
    (let d := generate_dispatcher_guidance confidence concern "" content
     (d.queue, d.priority_level, d.flag_audio_review)
        = specDecisionTable (decide (confidence ≥ 7/10)) (decide (content > 4/10))
            (decide (concern > 5/10))
     ∧ (d.escalation_required = true ↔ d.queue = "Q1-IMMEDIATE"))
    ∧ decide ((7/10 : ℚ) ≥ 7/10) = true
    ∧ decide ((6999/10000 : ℚ) ≥ 7/10) = false
    ∧ decide ((4/10 : ℚ) > 4/10) = false
    ∧ decide ((5/10 : ℚ) > 5/10) = false := by
  refine ⟨?_, by simp, by rw [decide_eq_false_iff_not]; norm_num,
    by rw [decide_eq_false_iff_not]; norm_num, by rw [decide_eq_false_iff_not]; norm_num⟩
  by_cases h1 : confidence ≥ 7/10 <;> by_cases h2 : content > 4/10 <;>
    by_cases h3 : concern > 5/10 <;>
    simp [generate_dispatcher_guidance, prioritize_call, specDecisionTable, h1, h2, h3]

/-- C2 witness: the theorem applied at the spec's hero scenario
(confidence 0.31, content 0.0, distress 0.94). -/
theorem c2_decision_matrix_witness :
    ((0 : ℚ) ≤ 31/100 ∧ (31/100 : ℚ) ≤ 1)
    ∧ ((let d := generate_dispatcher_guidance (31/100) (94/100) "" 0
        (d.queue, d.priority_level, d.flag_audio_review)
          = specDecisionTable (decide ((31/100 : ℚ) ≥ 7/10)) (decide ((0 : ℚ) > 4/10))
              (decide ((94/100 : ℚ) > 5/10))
        ∧ (d.escalation_required = true ↔ d.queue = "Q1-IMMEDIATE"))
      ∧ decide ((7/10 : ℚ) ≥ 7/10) = true
      ∧ decide ((6999/10000 : ℚ) ≥ 7/10) = false
      ∧ decide ((4/10 : ℚ) > 4/10) = false
      ∧ decide ((5/10 : ℚ) > 5/10) = false) :=
  ⟨hero_conf_bounds,
    c2_decision_matrix (31/100) 0 (94/100) hero_conf_bounds hero_content_bounds
      hero_distress_bounds⟩

/-- C5: on every buffer state reachable by `add_chunk`/`clear` sequences,
`should_process` is true iff (buffer non-empty, voice seen, and accumulated
silence has reached `silence_duration`) or the total duration has reached the
30 s overflow cap; and it is false on an empty buffer. -/
theorem c5_should_process (b : AudioBuffer) (h : BufReachable b) :
    (b.should_process = true ↔
      ((b.buffer ≠ [] ∧ 0 < b.last_voice_time ∧
        b.silence_duration ≤ b.total_duration - b.last_voice_time)
        ∨ 30 ≤ b.total_duration))
    ∧ (b.buffer = [] → b.should_process = false) := by
  obtain ⟨hsr, hdur⟩ := bufReachable_invariant b h
  refine ⟨?_, fun hb => by simp [AudioBuffer.should_process, hb]⟩
  by_cases he : b.buffer.length = 0
  · have hb : b.buffer = [] := List.length_eq_zero.mp he
    have h0 : b.total_duration = 0 := by rw [hdur, hb]; simp
    simp [AudioBuffer.should_process, he, hb, h0]
  · have hb : b.buffer ≠ [] := fun hh => he (by simp [hh])
    have hstep : b.should_process = true ↔
        ((b.total_duration - b.last_voice_time ≥ b.silence_duration ∧ b.last_voice_time > 0)
          ∨ b.total_duration ≥ 30) := by
      unfold AudioBuffer.should_process
      rw [if_neg he]
      split_ifs with h1 h2
      · simp [h1]
      · simp [h2]
      · simp [h1, h2]
    rw [hstep]
    constructor
    · rintro (⟨hsil, hlv⟩ | h30)
      · exact Or.inl ⟨hb, hlv, hsil⟩
      · exact Or.inr h30
    · rintro (⟨-, hlv, hsil⟩ | h30)
      · exact Or.inl ⟨hsil, hlv⟩
      · exact Or.inr h30

/-- C5 witness: the theorem applied to the freshly initialized (empty)
buffer, whose `should_process` is false. -/
theorem c5_should_process_witness :
    BufReachable mkAudioBuffer ∧ mkAudioBuffer.should_process = false :=
  ⟨BufReachable.init, (c5_should_process mkAudioBuffer BufReachable.init).2 rfl⟩

/-- C9: in a completed processing cycle, a (distress, chunk-duration) sample
is recorded unconditionally, a (confidence, chunk-duration) sample only when
the cycle's transcript fragment is non-empty after stripping; a cycle with
empty transcription text leaves the running confidence average unchanged
while the distress sample is still folded into the distress aggregator. -/
theorem c9_sample_recording (s : SessionState) (t : String) (c d n : ℚ) (p : Providers)
    (hbuf : s.audio_buffer.buffer ≠ [])
    (hasr : p.asr = Except.ok (t, c)) (hbio : p.bio = Except.ok d)
    (hnlp : p.nlp = Except.ok n) :
    (process_buffer s p).1.distress_scores
        = s.distress_scores ++ [(d, (s.audio_buffer.buffer.length : ℚ) / 16000)]
    ∧ (process_buffer s p).1.confidence_scores
        = (if pyStrip t = "" then s.confidence_scores
           else s.confidence_scores ++ [(c, (s.audio_buffer.buffer.length : ℚ) / 16000)])
    ∧ (pyStrip t = "" →
        (process_buffer s p).1.latest_confidence = s.latest_confidence
        ∧ weightedAverage (process_buffer s p).1.confidence_scores
            = weightedAverage s.confidence_scores)
    ∧ (process_buffer s p).1.latest_distress
        = weightedAverage
            (s.distress_scores ++ [(d, (s.audio_buffer.buffer.length : ℚ) / 16000)]) := by
  obtain ⟨asr, bio, nlp⟩ := p
  simp only at hasr hbio hnlp
  subst hasr hbio hnlp
  have hlen : ¬ s.audio_buffer.buffer.length = 0 := by
    simpa [List.length_eq_zero] using hbuf
  by_cases htr : pyStrip t = "" <;>
    simp [process_buffer, AudioBuffer.get_audio, hlen, htr, extract_entities,
      ← apply_ite (Except.ok : ℚ → Except String ℚ)]

/-- C9 witness: the theorem applied to a one-sample session whose cycle
transcribes to whitespace only. -/
theorem c9_sample_recording_witness :
    oneSampleSession.audio_buffer.buffer ≠ []
    ∧ (process_buffer oneSampleSession
        ⟨Except.ok ("  ", 1/2), Except.ok (3/4), Except.ok 0⟩).1.distress_scores
        = oneSampleSession.distress_scores
          ++ [((3/4 : ℚ), ((oneSampleSession.audio_buffer.buffer.length : ℚ) / 16000))] :=
  ⟨by simp [oneSampleSession, mkSession],
    (c9_sample_recording oneSampleSession "  " (1/2) (3/4) 0
      ⟨Except.ok ("  ", 1/2), Except.ok (3/4), Except.ok 0⟩
      (by simp [oneSampleSession, mkSession]) rfl rfl rfl).1⟩

/-- C6: a provider throw during a processing cycle is caught: an error update
is emitted, the session stays in its activity state, the buffer is not
cleared, and no decision update (`processing_complete`) is produced —
`current_triage` is left as it was. -/
theorem c6_provider_failure (s : SessionState) (p : Providers)
    (hbuf : s.audio_buffer.buffer ≠ []) (hthrow : cycle_throws s p) :
    (process_buffer s p).1.audio_buffer = s.audio_buffer
    ∧ (process_buffer s p).1.is_active = s.is_active
    ∧ (process_buffer s p).1.current_triage = s.current_triage
    ∧ (∃ m, Update.errorUpdate m ∈ (process_buffer s p).2)
    ∧ ∀ u ∈ (process_buffer s p).2, isProcessingComplete u = false := by
  obtain ⟨asr, bio, nlp⟩ := p
  have hlen : ¬ s.audio_buffer.buffer.length = 0 := by
    simpa [List.length_eq_zero] using hbuf
  cases asr with
  | error e =>
    simp [process_buffer, AudioBuffer.get_audio, hlen, isProcessingComplete]
  | ok pr =>
    obtain ⟨t, c⟩ := pr
    cases bio with
    | error e =>
      by_cases htr : pyStrip t = "" <;>
        simp [process_buffer, AudioBuffer.get_audio, hlen, htr, isProcessingComplete]
    | ok d =>
      cases nlp with
      | ok n => exact absurd hthrow (by simp [cycle_throws])
      | error e =>
        simp only [cycle_throws] at hthrow
        obtain ⟨hft, h5⟩ := hthrow
        by_cases htr : pyStrip t = ""
        · rw [appendTranscript, if_neg (by simp [htr])] at hft h5
          simp [process_buffer, AudioBuffer.get_audio, hlen, htr, extract_entities,
            isProcessingComplete, hft, h5, Nat.not_lt.mpr h5]
        · have hs1 : appendTranscript s.full_transcript (pyStrip t) ≠ "" := hft
          simp [process_buffer, AudioBuffer.get_audio, hlen, htr, extract_entities,
            isProcessingComplete, hs1, h5, Nat.not_lt.mpr h5]

/-- C6 witness: the theorem applied to a one-sample session whose ASR
provider throws. -/
theorem c6_provider_failure_witness :
    oneSampleSession.audio_buffer.buffer ≠ []
    ∧ cycle_throws oneSampleSession ⟨Except.error "ASR crashed", Except.ok 0, Except.ok 0⟩
    ∧ (∃ m, Update.errorUpdate m ∈
        (process_buffer oneSampleSession
          ⟨Except.error "ASR crashed", Except.ok 0, Except.ok 0⟩).2) :=
  ⟨by simp [oneSampleSession, mkSession], by simp [cycle_throws],
    (c6_provider_failure oneSampleSession
      ⟨Except.error "ASR crashed", Except.ok 0, Except.ok 0⟩
      (by simp [oneSampleSession, mkSession]) (by simp [cycle_throws])).2.2.2.1⟩

/-- C10: a failed cycle is not atomic.  If the bio-acoustic provider throws
after a successful transcription with non-empty stripped text, the fragment
is already appended to the running transcript and its (confidence, duration)
sample already recorded, while the buffer is preserved; a subsequent
successful cycle over the retained buffer appends the fragment and records a
confidence sample for the same audio a second time. -/
theorem c10_non_atomic_failure (s : SessionState) (t : String) (c d n : ℚ)
    (p1 p2 : Providers) (e : String)
    (hbuf : s.audio_buffer.buffer ≠ []) (htr : pyStrip t ≠ "")
    (h1a : p1.asr = Except.ok (t, c)) (h1b : p1.bio = Except.error e)
    (h2a : p2.asr = Except.ok (t, c)) (h2b : p2.bio = Except.ok d)
    (h2n : p2.nlp = Except.ok n) :
    (process_buffer s p1).1.audio_buffer = s.audio_buffer
    ∧ (process_buffer s p1).1.full_transcript
        = appendTranscript s.full_transcript (pyStrip t)
    ∧ (process_buffer s p1).1.confidence_scores
        = s.confidence_scores ++ [(c, (s.audio_buffer.buffer.length : ℚ) / 16000)]
    ∧ (process_buffer (process_buffer s p1).1 p2).1.confidence_scores
        = s.confidence_scores
          ++ [(c, (s.audio_buffer.buffer.length : ℚ) / 16000),
              (c, (s.audio_buffer.buffer.length : ℚ) / 16000)]
    ∧ (process_buffer (process_buffer s p1).1 p2).1.full_transcript
        = appendTranscript (appendTranscript s.full_transcript (pyStrip t)) (pyStrip t) := by
  obtain ⟨asr1, bio1, nlp1⟩ := p1
  obtain ⟨asr2, bio2, nlp2⟩ := p2
  simp only at h1a h1b h2a h2b h2n
  subst h1a h1b h2a h2b h2n
  have hlen : ¬ s.audio_buffer.buffer.length = 0 := by
    simpa [List.length_eq_zero] using hbuf
  simp [process_buffer, AudioBuffer.get_audio, hlen, htr, extract_entities,
    ← apply_ite (Except.ok : ℚ → Except String ℚ)]

/-- C10 witness: the theorem applied to a one-sample session transcribing to
"help", with the bio-acoustic provider failing in the first cycle. -/
theorem c10_non_atomic_failure_witness :
    oneSampleSession.audio_buffer.buffer ≠ [] ∧ pyStrip "help" ≠ ""
    ∧ (process_buffer (process_buffer oneSampleSession
          ⟨Except.ok ("help", 1/2), Except.error "pitch extraction failed", Except.ok 0⟩).1
        ⟨Except.ok ("help", 1/2), Except.ok (3/4), Except.ok (1/4)⟩).1.confidence_scores
        = oneSampleSession.confidence_scores
          ++ [((1/2 : ℚ), ((oneSampleSession.audio_buffer.buffer.length : ℚ) / 16000)),
              ((1/2 : ℚ), ((oneSampleSession.audio_buffer.buffer.length : ℚ) / 16000))] :=
  ⟨by simp [oneSampleSession, mkSession], by decide,
    (c10_non_atomic_failure oneSampleSession "help" (1/2) (3/4) (1/4)
      ⟨Except.ok ("help", 1/2), Except.error "pitch extraction failed", Except.ok 0⟩
      ⟨Except.ok ("help", 1/2), Except.ok (3/4), Except.ok (1/4)⟩
      "pitch extraction failed"
      (by simp [oneSampleSession, mkSession]) (by decide) rfl rfl rfl rfl rfl).2.2.2.1⟩

/-- C8 counterexample: with running transcript "ab" and a cycle transcribing
"cd", the transcript becomes "ab cd" — 4 non-whitespace characters, but 5
characters after stripping — and the cycle stores the NLP provider's score
0.9 instead of the 0 the claim requires for fewer than 5 non-whitespace
characters. -/
theorem c8_counterexample :
    countNonWhitespace "ab cd" = 4
    ∧ (process_buffer { oneSampleSession with full_transcript := "ab" }
        ⟨Except.ok ("cd", 1/2), Except.ok 0, Except.ok (9/10)⟩).1.content_score = 9/10
    ∧ (9 : ℚ)/10 ≠ 0 := by
  refine ⟨by decide, ?_, by norm_num⟩
  have hlen : ¬ ({ oneSampleSession with
      full_transcript := "ab" } : SessionState).audio_buffer.buffer.length = 0 := by
    simp [oneSampleSession, mkSession]
  simp [process_buffer, AudioBuffer.get_audio, hlen, extract_entities,
    show pyStrip "cd" = "cd" from rfl, show appendTranscript "ab" "cd" = "ab cd" from rfl,
    show pyStrip "ab cd" = "ab cd" from rfl, show "ab cd".length = 5 from rfl,
    oneSampleSession, mkSession]

/-- C8 amended: the entity-extraction provider is consulted (and its score
stored) iff the post-append transcript is non-empty and has at least 5
characters after stripping leading/trailing whitespace (internal whitespace
included in the count); otherwise the content score is set to 0 and the
cycle's outcome is independent of the NLP provider. -/
theorem c8_nlp_gate (s : SessionState) (t : String) (c d n : ℚ) (p : Providers)
    (hbuf : s.audio_buffer.buffer ≠ [])
    (hasr : p.asr = Except.ok (t, c)) (hbio : p.bio = Except.ok d)
    (hnlp : p.nlp = Except.ok n) :
    (process_buffer s p).1.content_score
      = (if appendTranscript s.full_transcript (pyStrip t) ≠ ""
            ∧ (pyStrip (appendTranscript s.full_transcript (pyStrip t))).length ≥ 5
         then n else 0)
    ∧ (¬(appendTranscript s.full_transcript (pyStrip t) ≠ ""
          ∧ (pyStrip (appendTranscript s.full_transcript (pyStrip t))).length ≥ 5) →
        ∀ q : Except String ℚ,
          process_buffer s { p with nlp := q } = process_buffer s p) := by
  obtain ⟨asr, bio, nlp⟩ := p
  simp only at hasr hbio hnlp
  subst hasr hbio hnlp
  have hlen : ¬ s.audio_buffer.buffer.length = 0 := by
    simpa [List.length_eq_zero] using hbuf
  by_cases htr : pyStrip t = ""
  · rw [show appendTranscript s.full_transcript (pyStrip t) = s.full_transcript from by
      rw [appendTranscript, if_neg (by simp [htr])]]
    by_cases hgate : s.full_transcript ≠ "" ∧ (pyStrip s.full_transcript).length ≥ 5
    · refine ⟨?_, fun hn => absurd hgate hn⟩
      simp [process_buffer, AudioBuffer.get_audio, hlen, htr, extract_entities, hgate,
        hgate.1, Nat.not_lt.mpr hgate.2]
    · constructor
      · simp [process_buffer, AudioBuffer.get_audio, hlen, htr, extract_entities, hgate]
      · intro _ q
        simp [process_buffer, AudioBuffer.get_audio, hlen, htr, extract_entities, hgate]
  · have happ : appendTranscript s.full_transcript (pyStrip t) ≠ "" := by
      rw [appendTranscript, if_pos htr]
      split
      · intro hh
        have hd := congrArg String.data hh
        simp at hd
      · exact htr
    by_cases h5 : (pyStrip (appendTranscript s.full_transcript (pyStrip t))).length ≥ 5
    · refine ⟨?_, fun hn => absurd ⟨happ, h5⟩ hn⟩
      simp [process_buffer, AudioBuffer.get_audio, hlen, htr, extract_entities, happ, h5,
        Nat.not_lt.mpr h5]
    · constructor
      · simp [process_buffer, AudioBuffer.get_audio, hlen, htr, extract_entities, happ, h5]
      · intro _ q
        simp [process_buffer, AudioBuffer.get_audio, hlen, htr, extract_entities, happ, h5]

/-- C8 witness: the theorem applied to a one-sample fresh session
transcribing "hello there" (gate passes, NLP score stored). -/
theorem c8_nlp_gate_witness :
    oneSampleSession.audio_buffer.buffer ≠ []
    ∧ (process_buffer oneSampleSession
        ⟨Except.ok ("hello there", 1/2), Except.ok 0, Except.ok (3/5)⟩).1.content_score
      = (if appendTranscript oneSampleSession.full_transcript (pyStrip "hello there") ≠ ""
            ∧ (pyStrip (appendTranscript oneSampleSession.full_transcript
                (pyStrip "hello there"))).length ≥ 5
         then (3/5 : ℚ) else 0) :=
  ⟨by simp [oneSampleSession, mkSession],
    (c8_nlp_gate oneSampleSession "hello there" (1/2) 0 (3/5)
      ⟨Except.ok ("hello there", 1/2), Except.ok 0, Except.ok (3/5)⟩
      (by simp [oneSampleSession, mkSession]) rfl rfl rfl).1⟩

/-- A processing cycle never touches the received-chunk counter. -/
theorem process_buffer_chunk_count (s : SessionState) (p : Providers) :
    (process_buffer s p).1.chunk_count = s.chunk_count := by
  obtain ⟨asr, bio, nlp⟩ := p
  by_cases hlen : s.audio_buffer.get_audio.length = 0
  · simp [process_buffer, hlen]
  · cases asr with
    | error e => simp [process_buffer, hlen]
    | ok pr =>
      obtain ⟨t, c⟩ := pr
      cases bio with
      | error e =>
        by_cases htr : pyStrip t = "" <;> simp [process_buffer, hlen, htr]
      | ok d =>
        by_cases htr : pyStrip t = "" <;>
          simp [process_buffer, hlen, htr] <;> split <;> simp

/-- `process_audio_chunk` always increments the received-chunk counter by
one, whether or not a cycle runs (and even for malformed chunks). -/
theorem process_audio_chunk_count (s : SessionState) (audio_data : Option (List ℚ))
    (p : Providers) :
    (process_audio_chunk s audio_data p).1.chunk_count = s.chunk_count + 1 := by
  by_cases hsp : (s.audio_buffer.add_chunk audio_data).should_process
  · simp [process_audio_chunk, hsp, process_buffer_chunk_count]
  · simp [process_audio_chunk, hsp]

/-- Through the session interface, `chunk_count = 0` forces the buffer to be
untouched (in particular empty): the counter counts received chunks and is
incremented on every one. -/
theorem sessionReachable_chunk_zero (s : SessionState) (h : SessionReachable s) :
    s.chunk_count = 0 → s.audio_buffer = mkAudioBuffer := by
  induction h with
  | init cid t0 => intro _; rfl
  | step s audio_data p _ _ =>
    intro hz
    rw [process_audio_chunk_count] at hz
    exact absurd hz (Nat.succ_ne_zero _)

/-- When `chunk_count = 0` implies an untouched buffer — true of every state
the chunk interface can produce — `finalize` runs no processing cycle at all:
it only flips `is_active`, persists one row, and reports the session's
current aggregates. -/
theorem finalize_eq_of_guard (s : SessionState)
    (hz : s.chunk_count = 0 → s.audio_buffer = mkAudioBuffer)
    (now : ℚ) (conn : Bool) (p : Providers) (db : DbState) :
    finalize s now conn p db =
      { state := { s with is_active := false }
        analysis :=
          { call_id := s.call_id
            duration := now - s.start_time
            transcript := s.full_transcript
            confidence := weightedAverage s.confidence_scores
            content_score := s.content_score
            distress_score := weightedAverage s.distress_scores
            triage := s.current_triage
            chunks_processed := s.chunk_count }
        events := []
        db := save_to_database { s with is_active := false } now (now - s.start_time) db } := by
  have hguard : ¬ (s.chunk_count = 0
      ∧ ({ s with is_active := false } : SessionState).audio_buffer.get_duration > 2) := by
    rintro ⟨h0, hd⟩
    rw [show ({ s with is_active := false } : SessionState).audio_buffer = s.audio_buffer
        from rfl, hz h0] at hd
    norm_num [AudioBuffer.get_duration, mkAudioBuffer] at hd
  simp [finalize, hguard]

/-- C7 counterexample: a zero-length chunk fed to a fresh session increments
the chunk counter from 0 to 1 — session state is not fully unchanged as the
claim requires. -/
theorem c7_counterexample :
    (process_audio_chunk (mkSession "LIVE-C7" 0) (some [])
        ⟨Except.ok ("", 0), Except.ok 0, Except.ok 0⟩).1.chunk_count
      = (mkSession "LIVE-C7" 0).chunk_count + 1
    ∧ (mkSession "LIVE-C7" 0).chunk_count = 0 :=
  ⟨process_audio_chunk_count _ _ _, rfl⟩

/-- C7 amended: a malformed chunk (zero-length or undecodable) leaves the
buffer, aggregates, transcript and decision unchanged and surfaces no error
— the only emitted update is the routine buffer status — but the chunk
counter is incremented.  (The hypothesis that the retained buffer is not
already awaiting processing rules out a pending cycle left by an earlier
provider failure.) -/
theorem c7_malformed_chunk (s : SessionState) (audio_data : Option (List ℚ))
    (p : Providers) (hmal : audio_data = none ∨ audio_data = some [])
    (hidle : s.audio_buffer.should_process = false) :
    (process_audio_chunk s audio_data p).1 = { s with chunk_count := s.chunk_count + 1 }
    ∧ (process_audio_chunk s audio_data p).2
        = [Update.bufferUpdate s.audio_buffer.total_duration (s.chunk_count + 1)] := by
  rcases hmal with h | h <;> subst h <;>
    simp [process_audio_chunk, AudioBuffer.add_chunk, AudioBuffer.get_duration, hidle]

/-- C7 witness: the amended theorem applied to a fresh session receiving a
zero-length chunk. -/
theorem c7_malformed_chunk_witness :
    ((some ([] : List ℚ) : Option (List ℚ)) = none ∨ (some ([] : List ℚ)) = some [])
    ∧ (mkSession "LIVE-W7" 0).audio_buffer.should_process = false
    ∧ (process_audio_chunk (mkSession "LIVE-W7" 0) (some [])
        ⟨Except.ok ("", 0), Except.ok 0, Except.ok 0⟩).1
      = { mkSession "LIVE-W7" 0 with chunk_count := (mkSession "LIVE-W7" 0).chunk_count + 1 } :=
  ⟨Or.inr rfl, rfl,
    (c7_malformed_chunk (mkSession "LIVE-W7" 0) (some [])
      ⟨Except.ok ("", 0), Except.ok 0, Except.ok 0⟩ (Or.inr rfl) rfl).1⟩

/-- C1 counterexample: two sequential `finalize` calls on the same session.
The second call issues a second database write (the attempt counter reaches
2; only the unique-key rejection keeps the row count at 1) and returns an
analysis differing in its duration field — it is not the claimed no-op. -/
theorem c1_counterexample :
    (finalize (finalize (mkSession "LIVE-1" 0) 10 true provOk ⟨[], 0⟩).state 20 true provOk
        (finalize (mkSession "LIVE-1" 0) 10 true provOk ⟨[], 0⟩).db).db.write_attempts = 2
    ∧ (finalize (finalize (mkSession "LIVE-1" 0) 10 true provOk ⟨[], 0⟩).state 20 true provOk
        (finalize (mkSession "LIVE-1" 0) 10 true provOk ⟨[], 0⟩).db).db.records.length = 1
    ∧ (finalize (finalize (mkSession "LIVE-1" 0) 10 true provOk ⟨[], 0⟩).state 20 true provOk
          (finalize (mkSession "LIVE-1" 0) 10 true provOk ⟨[], 0⟩).db).analysis.duration
        ≠ (finalize (mkSession "LIVE-1" 0) 10 true provOk ⟨[], 0⟩).analysis.duration := by
  have hz : (mkSession "LIVE-1" 0).chunk_count = 0 →
      (mkSession "LIVE-1" 0).audio_buffer = mkAudioBuffer := fun _ => rfl
  have hz' : ({ mkSession "LIVE-1" 0 with is_active := false } : SessionState).chunk_count = 0 →
      ({ mkSession "LIVE-1" 0 with is_active := false } : SessionState).audio_buffer
        = mkAudioBuffer := fun _ => rfl
  rw [finalize_eq_of_guard (mkSession "LIVE-1" 0) hz 10 true provOk ⟨[], 0⟩]
  rw [finalize_eq_of_guard _ hz' 20 true provOk _]
  refine ⟨rfl, rfl, ?_⟩
  simp [mkSession]

/-- C1 amended: on any session reachable through the chunk interface, with no
prior row for its call id, a second `finalize` changes no session state, runs
no processing cycle, adds no second persisted record (exactly one row carries
the call id), and returns the same analysis except for the recomputed
wall-clock duration — but it does issue a second database write attempt,
which only the unique `call_id` constraint rejects. -/
theorem c1_finalize_idempotence (s : SessionState) (db : DbState) (t1 t2 : ℚ)
    (conn1 conn2 : Bool) (p1 p2 : Providers)
    (hreach : SessionReachable s)
    (hfresh : ∀ r ∈ db.records, r.call_id ≠ s.call_id) :
    (finalize (finalize s t1 conn1 p1 db).state t2 conn2 p2
        (finalize s t1 conn1 p1 db).db).state = (finalize s t1 conn1 p1 db).state
    ∧ (finalize (finalize s t1 conn1 p1 db).state t2 conn2 p2
        (finalize s t1 conn1 p1 db).db).events = []
    ∧ (finalize (finalize s t1 conn1 p1 db).state t2 conn2 p2
        (finalize s t1 conn1 p1 db).db).db.records = (finalize s t1 conn1 p1 db).db.records
    ∧ ((finalize s t1 conn1 p1 db).db.records.filter
        (fun q => q.call_id == s.call_id)).length = 1
    ∧ (finalize (finalize s t1 conn1 p1 db).state t2 conn2 p2
          (finalize s t1 conn1 p1 db).db).db.write_attempts
        = (finalize s t1 conn1 p1 db).db.write_attempts + 1
    ∧ (finalize (finalize s t1 conn1 p1 db).state t2 conn2 p2
          (finalize s t1 conn1 p1 db).db).analysis
        = { (finalize s t1 conn1 p1 db).analysis with duration := t2 - s.start_time } := by
  have hz : s.chunk_count = 0 → s.audio_buffer = mkAudioBuffer :=
    sessionReachable_chunk_zero s hreach
  have hz' : ({ s with is_active := false } : SessionState).chunk_count = 0 →
      ({ s with is_active := false } : SessionState).audio_buffer = mkAudioBuffer := hz
  have hany : db.records.any (fun q => q.call_id == s.call_id) = false := by
    rw [List.any_eq_false]
    intro x hx
    simpa using hfresh x hx
  have hfil : db.records.filter (fun q => q.call_id == s.call_id) = [] := by
    rw [List.filter_eq_nil_iff]
    intro x hx
    simpa using hfresh x hx
  rw [finalize_eq_of_guard s hz t1 conn1 p1 db]
  rw [finalize_eq_of_guard _ hz' t2 conn2 p2 _]
  refine ⟨rfl, rfl, ?_, ?_, rfl, rfl⟩
  · simp [save_to_database, insertLiveCall, hany, List.any_append]
  · simp [save_to_database, insertLiveCall, hany, List.filter_append, hfil]

/-- C1 witness: the amended theorem applied to a fresh reachable session and
an empty store. -/
theorem c1_finalize_idempotence_witness :
    SessionReachable (mkSession "LIVE-W1" 0)
    ∧ ((finalize (mkSession "LIVE-W1" 0) 10 true provOk ⟨[], 0⟩).db.records.filter
        (fun q => q.call_id == (mkSession "LIVE-W1" 0).call_id)).length = 1 :=
  ⟨SessionReachable.init "LIVE-W1" 0,
    (c1_finalize_idempotence (mkSession "LIVE-W1" 0) ⟨[], 0⟩ 10 20 true true provOk provOk
      (SessionReachable.init "LIVE-W1" 0) (by simp)).2.2.2.1⟩

/-- Sum of squares of an all-zero block is zero (silent audio). -/
theorem sumSq_replicate_zero (n : ℕ) : sumSq (List.replicate n (0 : ℚ)) = 0 := by
  simp [sumSq, List.map_replicate, List.sum_replicate]

/-- C3: the failing input.  A session receives one 3-second silent chunk
(never firing the VAD trigger, so no processing cycle ever completed), yet
`finalize` skips the final processing cycle — `chunk_count` counts received
chunks, not completed cycles — and the call ends with no transcript and no
decision although more than 2 s of unprocessed audio were buffered. -/
theorem c3_short_call_dropped :
    (process_audio_chunk (mkSession "LIVE-C3" 0) (some (List.replicate 48000 0))
        provOk).1.audio_buffer.get_duration = 3
    ∧ (process_audio_chunk (mkSession "LIVE-C3" 0) (some (List.replicate 48000 0))
        provOk).1.confidence_scores = []
    ∧ (process_audio_chunk (mkSession "LIVE-C3" 0) (some (List.replicate 48000 0))
        provOk).1.current_triage = none
    ∧ (finalize (process_audio_chunk (mkSession "LIVE-C3" 0)
          (some (List.replicate 48000 0)) provOk).1 10 true provOk ⟨[], 0⟩).events = []
    ∧ (finalize (process_audio_chunk (mkSession "LIVE-C3" 0)
          (some (List.replicate 48000 0)) provOk).1 10 true provOk
        ⟨[], 0⟩).analysis.transcript = ""
    ∧ (finalize (process_audio_chunk (mkSession "LIVE-C3" 0)
          (some (List.replicate 48000 0)) provOk).1 10 true provOk
        ⟨[], 0⟩).analysis.triage = none := by
  have hv : blockVoiced mkAudioBuffer.energy_threshold (List.replicate 48000 0) = false := by
    rw [blockVoiced, decide_eq_false_iff_not]
    rw [sumSq_replicate_zero]
    norm_num [mkAudioBuffer]
  have hb : mkAudioBuffer.add_chunk (some (List.replicate 48000 0))
      = { mkAudioBuffer with buffer := List.replicate 48000 0, total_duration := 3 } := by
    rw [show (List.replicate 48000 (0 : ℚ)) = 0 :: List.replicate 47999 0 from rfl]
    rw [AudioBuffer.add_chunk]
    rw [show (0 : ℚ) :: List.replicate 47999 0 = List.replicate 48000 0 from rfl]
    rw [hv]
    rw [show mkAudioBuffer.buffer ++ List.replicate 48000 (0 : ℚ) = List.replicate 48000 0 from
      List.nil_append _]
    rw [List.length_replicate]
    norm_num [mkAudioBuffer]
    exact fun hh => absurd hh (List.cons_ne_nil _ _)
  have hsp : ({ mkAudioBuffer with buffer := List.replicate 48000 0, total_duration := 3 }
      : AudioBuffer).should_process = false := by
    rw [AudioBuffer.should_process]
    rw [show ({ mkAudioBuffer with buffer := List.replicate 48000 0, total_duration := 3 }
          : AudioBuffer).buffer = List.replicate 48000 0 from rfl,
        show ({ mkAudioBuffer with buffer := List.replicate 48000 0, total_duration := 3 }
          : AudioBuffer).total_duration = 3 from rfl,
        show ({ mkAudioBuffer with buffer := List.replicate 48000 0, total_duration := 3 }
          : AudioBuffer).last_voice_time = 0 from rfl,
        show ({ mkAudioBuffer with buffer := List.replicate 48000 0, total_duration := 3 }
          : AudioBuffer).silence_duration = 3/2 from rfl,
        List.length_replicate]
    norm_num
  have hstep : (process_audio_chunk (mkSession "LIVE-C3" 0)
      (some (List.replicate 48000 0)) provOk).1
      = { mkSession "LIVE-C3" 0 with
          audio_buffer :=
            { mkAudioBuffer with buffer := List.replicate 48000 0, total_duration := 3 }
          chunk_count := 1 } := by
    rw [process_audio_chunk]
    simp only [mkSession, hb, hsp]
    rfl
  rw [hstep]
  have hz : ({ mkSession "LIVE-C3" 0 with
      audio_buffer :=
        { mkAudioBuffer with buffer := List.replicate 48000 0, total_duration := 3 }
      chunk_count := 1 } : SessionState).chunk_count = 0 →
      ({ mkSession "LIVE-C3" 0 with
        audio_buffer :=
          { mkAudioBuffer with buffer := List.replicate 48000 0, total_duration := 3 }
        chunk_count := 1 } : SessionState).audio_buffer = mkAudioBuffer := by
    intro hcz
    exact absurd (show (1 : ℕ) = 0 from hcz) Nat.one_ne_zero
  rw [finalize_eq_of_guard _ hz 10 true provOk ⟨[], 0⟩]
  exact ⟨rfl, rfl, rfl, rfl, rfl, rfl⟩

end Trident
